import Mathlib

/-!
Shallow embedding of the LexlyAI frontend (React/TypeScript) client logic:
the API client (`src/frontend/src/services/apiService.ts`), the top-level
coordinator (`src/frontend/src/App.tsx`), the chat view
(`src/frontend/src/components/ChatInterface.tsx`) and the document-analysis
view (`src/unnamed/part_000`, the `DocumentAnalysis` component).

Event handlers are embedded as pure functions from the component's state
(plus the eventual outcome of any HTTP call they await) to the resulting
state; asynchronous interleavings are modelled with an explicit multiset of
in-flight requests per operation.  JavaScript string truthiness (`""` is
falsy) is modelled explicitly wherever the source relies on it.
-/

namespace LexlyAI

/-- `types/index.ts` `DocumentMetadata`. -/
structure DocumentMetadata where
  document_type : String
  parties : List String
  dates : List String
  contract_value : Option String
  jurisdiction : Option String
  governing_law : Option String
deriving Repr, DecidableEq

/-- `types/index.ts` `Clause`; `metadata: Record<string, any>` is modelled as
an association list with opaque (string) values. -/
structure Clause where
  id : String
  title : String
  text : String
  clause_type : String
  metadata : List (String × String)
  start_page : Nat
  end_page : Nat
deriving Repr, DecidableEq

/-- `types/index.ts` `DocumentAnalysis`. -/
structure DocumentAnalysis where
  document_id : String
  document_name : String
  metadata : DocumentMetadata
  clauses : List Clause
  summary : Option String
  processing_timestamp : String
  confidence_score : Rat
deriving Repr, DecidableEq

/-- `types/index.ts` `ClauseExplanation`. -/
structure ClauseExplanation where
  clause_id : String
  original_text : String
  explanation : String
  key_points : List String
  risks : List String
  plain_language : String
deriving Repr, DecidableEq

/-- `types/index.ts` `ChatMessage.role`, the union `"user" | "assistant"`. -/
inductive Role where
  | user
  | assistant
deriving Repr, DecidableEq

/-- `types/index.ts` `ChatMessage`. -/
structure ChatMessage where
  role : Role
  content : String
  timestamp : String
deriving Repr, DecidableEq

/-- `types/index.ts` `SessionData`. -/
structure SessionData where
  sessionId : String
  documentName : String
  analysis : DocumentAnalysis
  conversationHistory : List ChatMessage
deriving Repr, DecidableEq

/-- `types/index.ts` `ChatResponse`. -/
structure ChatResponse where
  session_id : String
  response : String
  timestamp : String
deriving Repr, DecidableEq

/-- The payload of a successful HTTP reply to `POST /upload`
(`types/index.ts` `UploadResponse`); `session_id` is `Option` because the
upload handler checks `response.data?.session_id` for presence/truthiness. -/
structure UploadResponseData where
  session_id : Option String
  document_name : String
  analysis : DocumentAnalysis
  message : String
deriving Repr, DecidableEq

/-- An outbound HTTP request as built by the axios wrapper in
`apiService.ts` (method and interpolated path). -/
structure HttpRequest where
  method : String
  path : String
deriving Repr, DecidableEq

/-- What an `ApiService` method does before any response arrives: either it
throws a local validation error (before any network traffic) or it issues
exactly one HTTP request. -/
inductive CallStep where
  | localError (message : String)
  | request (req : HttpRequest)
deriving Repr, DecidableEq

/-- Whether a `CallStep` is a local validation error (no request issued). -/
def CallStep.isLocalError : CallStep → Bool
  | .localError _ => true
  | .request _ => false

/-- JavaScript truthiness of a possibly-missing string field
(`undefined`, `null` and `""` are falsy). -/
def strTruthy : Option String → Bool
  | none => false
  | some s => s ≠ ""

/-- `apiService.ts` `explainClause`: no session-id validation; always posts
`/explain/{sessionId}/{clauseId}`. -/
def explainClauseStep (sessionId clauseId : String) : CallStep :=
  .request ⟨"POST", "/explain/" ++ sessionId ++ "/" ++ clauseId⟩

/-- `apiService.ts` `summarizeDocument`: throws locally when `!sessionId`,
otherwise posts `/summarize/{sessionId}`. -/
def summarizeDocumentStep (sessionId : String) : CallStep :=
  if sessionId = "" then .localError "Session ID is required"
  else .request ⟨"POST", "/summarize/" ++ sessionId⟩

/-- `apiService.ts` `chatWithDocument`, request phase: throws locally when
`!sessionId`, otherwise posts `/chat/{sessionId}`. -/
def chatWithDocumentStep (sessionId : String) : CallStep :=
  if sessionId = "" then .localError "Session ID is required for chat"
  else .request ⟨"POST", "/chat/" ++ sessionId⟩

/-- `apiService.ts` `getSession`: no session-id validation; always gets
`/sessions/{sessionId}`. -/
def getSessionStep (sessionId : String) : CallStep :=
  .request ⟨"GET", "/sessions/" ++ sessionId⟩

/-- `apiService.ts` `deleteSession`: throws locally when `!sessionId`,
otherwise deletes `/sessions/{sessionId}`. -/
def deleteSessionStep (sessionId : String) : CallStep :=
  if sessionId = "" then .localError "Session ID is required"
  else .request ⟨"DELETE", "/sessions/" ++ sessionId⟩

/-- Outcome of an awaited HTTP call: success payload, an HTTP error
response with a status code and an error message, or a network-level
failure (axios error with no `response`). -/
inductive HttpOutcome (α : Type) where
  | ok (payload : α)
  | httpError (status : Nat) (message : String)
  | networkError (message : String)
deriving Repr, DecidableEq

/-- `apiService.ts` `chatWithDocument`, response phase: a 404 response is
rethrown as the dedicated "Chat session not found" error; every other
failure propagates with its own message. -/
def chatWithDocumentResult (outcome : HttpOutcome ChatResponse) :
    Except String ChatResponse :=
  match outcome with
  | .ok r => .ok r
  | .httpError status message =>
      if status = 404 then .error "Chat session not found. Please reload the page."
      else .error message
  | .networkError message => .error message

/-- `App.tsx` component state: tab index, held session, loading/error/success
banners, and the analysis shown in the Analysis tab. -/
structure AppState where
  currentTab : Nat
  sessionData : Option SessionData
  loading : Bool
  error : Option String
  success : Option String
  documentAnalysis : Option DocumentAnalysis
deriving Repr, DecidableEq

/-- Outcome of the awaited `ApiService.uploadDocument` call in
`handleDocumentUpload`: a successful HTTP reply carrying the payload, or a
rejection whose error message is `message`. -/
inductive UploadOutcome where
  | success (data : UploadResponseData)
  | failure (message : String)
deriving Repr, DecidableEq

/-- The `catch` block of `App.tsx` `handleDocumentUpload`:
`setError(err.message || "Failed to upload document")`, then
`setSessionData(null)` and `setDocumentAnalysis(null)` (the `finally`
clears `loading`). -/
def uploadCatch (s : AppState) (message : String) : AppState :=
  { s with
      error := some (if message = "" then "Failed to upload document" else message)
      sessionData := none
      documentAnalysis := none
      loading := false }

/-- `App.tsx` `handleDocumentUpload`, from the awaited upload outcome to the
component state after the handler (including the `finally` block).  When
`response.data?.session_id` is truthy a fresh session with empty history is
installed and the Analysis tab selected; otherwise the handler throws
"Invalid response: missing session ID", landing in `uploadCatch`. -/
def handleDocumentUpload (s : AppState) (outcome : UploadOutcome) : AppState :=
  match outcome with
  | .success d =>
      match d.session_id with
      | some sid =>
          if sid = "" then uploadCatch s "Invalid response: missing session ID"
          else
            { s with
                sessionData := some ⟨sid, d.document_name, d.analysis, []⟩
                documentAnalysis := some d.analysis
                success := some "Document uploaded and processed successfully!"
                currentTab := 1
                error := none
                loading := false }
      | none => uploadCatch s "Invalid response: missing session ID"
  | .failure message => uploadCatch s message

/-- `App.tsx` `handleSessionLoad`. -/
def handleSessionLoad (s : AppState) (session : SessionData) : AppState :=
  { s with
      sessionData := some session
      documentAnalysis := some session.analysis
      currentTab := 1 }

/-- `DocumentUpload.tsx` `loadSession`: awaits `ApiService.getSession` and
passes the normalized session to `onSessionLoad` on success; the `catch` is
silent (`// handle error silently`), so a rejection invokes no callback.
The result is the session handed to `onSessionLoad`, `none` when the call
failed. -/
def loadSession : Except String SessionData → Option SessionData
  | .ok sessionData => some sessionData
  | .error _ => none

/-- `loadSession` composed with its `onSessionLoad` prop, which `App.tsx`
wires to `handleSessionLoad`: a successful load installs the session, a
failed load leaves the application state untouched (and shows no
message). -/
def loadSessionApp (s : AppState) (result : Except String SessionData) : AppState :=
  match loadSession result with
  | some session => handleSessionLoad s session
  | none => s

/-- JavaScript `String.prototype.trim`: strip leading and trailing
whitespace (modelled over the string's character list, so that it computes
by structural recursion). -/
def jsTrim (s : String) : String :=
  ⟨((s.data.dropWhile Char.isWhitespace).reverse.dropWhile Char.isWhitespace).reverse⟩

/-- `ChatInterface.tsx` local component state: the composer text, the local
message list, the in-flight flag and the inline error banner. -/
structure ChatState where
  message : String
  messages : List ChatMessage
  loading : Bool
  error : Option String
deriving Repr, DecidableEq

/-- The observable effect of one run of `handleSendMessage`: whether an HTTP
request was issued (and which), the final local state, and the session
passed to `onSessionUpdate` when that callback was invoked. -/
structure SendStep where
  request : Option HttpRequest
  final : ChatState
  sessionUpdate : Option SessionData
deriving Repr, DecidableEq

/-- `ChatInterface.tsx` `handleSendMessage`, from the pre-send state, the
session prop, the `new Date().toISOString()` value and the awaited chat
outcome to the run's observable effect.  Blank/in-flight sends and a missing
session id return before any request; otherwise the trimmed user message is
appended optimistically, the request issued, and on success the assistant
reply is appended and `onSessionUpdate` called, while on failure
`setMessages(messages)` restores the pre-send snapshot and the error is
shown (`finally` clears `loading` in all sent cases). -/
def handleSendMessage (st : ChatState) (sessionData : SessionData)
    (now : String) (outcome : HttpOutcome ChatResponse) : SendStep :=
  if jsTrim st.message = "" ∨ st.loading then ⟨none, st, none⟩
  else if sessionData.sessionId = "" then
    ⟨none, { st with error := some "Session ID is not available. Please reload the page." },
      none⟩
  else
    let userMessage : ChatMessage := ⟨.user, jsTrim st.message, now⟩
    let newMessages := st.messages ++ [userMessage]
    let req : HttpRequest := ⟨"POST", "/chat/" ++ sessionData.sessionId⟩
    match chatWithDocumentResult outcome with
    | .ok resp =>
        let assistantMessage : ChatMessage := ⟨.assistant, resp.response, resp.timestamp⟩
        let updatedMessages := newMessages ++ [assistantMessage]
        ⟨some req,
          { message := "", messages := updatedMessages, loading := false, error := none },
          some { sessionData with conversationHistory := updatedMessages }⟩
    | .error msg =>
        ⟨some req,
          { message := ""
            messages := st.messages
            loading := false
            error := some (if msg = "" then "Failed to send message" else msg) },
          none⟩

/-- `ChatInterface.tsx` `clearConversation`: empties the local message list
and the error banner; the composer text, the loading flag and the session
prop are untouched and `onSessionUpdate` is never called (second component:
the session update emitted, always `none`). -/
def clearConversation (st : ChatState) : ChatState × Option SessionData :=
  ({ st with messages := [], error := none }, none)

/-- `ChatInterface.tsx` `useEffect` on `[sessionData]`: with a falsy session
id it only sets the error banner; otherwise it resets the local message list
from `sessionData.conversationHistory` and clears the error. -/
def sessionDataEffect (sessionData : SessionData) (st : ChatState) : ChatState :=
  if sessionData.sessionId = "" then
    { st with error := some "Session ID is not available. Please reload the page." }
  else
    { st with messages := sessionData.conversationHistory, error := none }

/-- `DocumentAnalysis` component state (`src/unnamed/part_000`): the single
expanded clause (`string | false`), the per-clause explanation cache
(`Record<string, ClauseExplanation>` as an association list with overwrite
semantics), the `loadingExplanations` set, summary text and flags. -/
structure DAState where
  expandedClause : Option String
  clauseExplanations : List (String × ClauseExplanation)
  loadingExplanations : List String
  documentSummary : Option String
  loadingSummary : Bool
  error : Option String
deriving Repr, DecidableEq

/-- `{...prev, [clauseId]: explanation}`: record update with overwrite. -/
def recordSet (m : List (String × ClauseExplanation)) (k : String)
    (v : ClauseExplanation) : List (String × ClauseExplanation) :=
  (k, v) :: m.filter (fun p => p.1 ≠ k)

/-- `new Set(prev).add(x)`: set insertion (no duplicates). -/
def setAdd (l : List String) (x : String) : List String :=
  if x ∈ l then l else x :: l

/-- The analysis view together with its environment's pending requests:
`inflightExplain` is the multiset (with duplicates) of clause ids whose
`explainClause` promise is outstanding, `inflightSummary` counts outstanding
`summarizeDocument` promises. -/
structure DAWorld where
  ui : DAState
  inflightExplain : List String
  inflightSummary : Nat
deriving Repr, DecidableEq

/-- Events that drive the analysis view: a click on a clause header, the
resolution/rejection of an outstanding explanation promise, a click on the
summary button, and the resolution/rejection of a summary promise. -/
inductive DAEvent where
  | clickClause (clauseId : String)
  | explainResolved (clauseId : String) (explanation : ClauseExplanation)
  | explainFailed (clauseId : String)
  | clickSummary
  | summaryResolved (summary : String)
  | summaryFailed
deriving Repr, DecidableEq

/-- One step of the analysis view, given the session prop (`daStep` returns
`none` for a completion event with no matching outstanding request).

`clickClause` is the synchronous part of `handleClauseExpand`: toggle
`expandedClause`, and start a fetch iff the clause has no cached explanation
and was not the previously expanded one — the `loadingExplanations` set is
added to but never consulted by this guard.  `explainResolved`/
`explainFailed` are the continuation after the `await`: the resolution
caches the explanation, the rejection is silent, and `finally` deletes the
clause id from the loading set either way.  `clickSummary` is
`handleGenerateSummary` up to its `await` (no-op on a falsy session id);
`summaryResolved` stores the summary and `summaryFailed` stores the fixed
failure text, both clearing `loadingSummary`. -/
def daStep (sessionData : SessionData) (w : DAWorld) : DAEvent → Option DAWorld
  | .clickClause clauseId =>
      let wasExpanded := w.ui.expandedClause = some clauseId
      let ui1 := { w.ui with
        expandedClause := if wasExpanded then none else some clauseId }
      if (w.ui.clauseExplanations.lookup clauseId).isNone ∧ ¬ wasExpanded then
        some { w with
          ui := { ui1 with loadingExplanations := setAdd ui1.loadingExplanations clauseId }
          inflightExplain := clauseId :: w.inflightExplain }
      else
        some { w with ui := ui1 }
  | .explainResolved clauseId explanation =>
      if clauseId ∈ w.inflightExplain then
        some { w with
          ui := { w.ui with
            clauseExplanations := recordSet w.ui.clauseExplanations clauseId explanation
            loadingExplanations := w.ui.loadingExplanations.erase clauseId }
          inflightExplain := w.inflightExplain.erase clauseId }
      else none
  | .explainFailed clauseId =>
      if clauseId ∈ w.inflightExplain then
        some { w with
          ui := { w.ui with
            loadingExplanations := w.ui.loadingExplanations.erase clauseId }
          inflightExplain := w.inflightExplain.erase clauseId }
      else none
  | .clickSummary =>
      if sessionData.sessionId = "" then some w
      else
        some { w with
          ui := { w.ui with loadingSummary := true }
          inflightSummary := w.inflightSummary + 1 }
  | .summaryResolved summary =>
      if w.inflightSummary > 0 then
        some { w with
          ui := { w.ui with documentSummary := some summary, loadingSummary := false }
          inflightSummary := w.inflightSummary - 1 }
      else none
  | .summaryFailed =>
      if w.inflightSummary > 0 then
        some { w with
          ui := { w.ui with
            documentSummary := some "Failed to generate summary. Please try again."
            loadingSummary := false }
          inflightSummary := w.inflightSummary - 1 }
      else none

/-- Run a list of events through `daStep`, dropping impossible completions. -/
def daRun (sessionData : SessionData) (w : DAWorld) : List DAEvent → Option DAWorld
  | [] => some w
  | ev :: evs => (daStep sessionData w ev).bind (fun w1 => daRun sessionData w1 evs)

/-- Whether an `HttpOutcome` is a success. -/
def HttpOutcome.isOk {α : Type} : HttpOutcome α → Bool
  | .ok _ => true
  | _ => false

/-! Concrete fixtures used by witnesses and counterexamples. -/

def sampleMetadata : DocumentMetadata :=
  ⟨"lease_agreement", ["Alice", "Bob"], ["2024-01-01"], none, none, none⟩

def sampleClause : Clause :=
  ⟨"clause-1", "Termination", "The tenant may terminate with 30 days notice.",
    "termination", [], 1, 1⟩

def sampleAnalysis : DocumentAnalysis :=
  ⟨"doc-1", "Lease.pdf", sampleMetadata, [sampleClause], none,
    "2024-01-02T00:00:00Z", 9/10⟩

def sampleSession : SessionData := ⟨"s1", "Lease.pdf", sampleAnalysis, []⟩

def sampleExplanation : ClauseExplanation :=
  ⟨"clause-1", "original text", "an explanation", ["key point"], ["a risk"],
    "plain language"⟩

/-- An `App.tsx` state already holding a session, as left by a previous
successful upload. -/
def heldAppState : AppState :=
  ⟨1, some sampleSession, false, none,
    some "Document uploaded and processed successfully!", some sampleAnalysis⟩

/-- A fresh `DocumentAnalysis`-view world: nothing expanded, empty caches,
no outstanding requests. -/
def da_w0 : DAWorld := ⟨⟨none, [], [], none, false, none⟩, [], 0⟩

/-! Claims. -/

/-- C1, counterexample: starting from a state that already holds a session,
an upload whose HTTP response lacks `session_id` does surface the error
"Invalid response: missing session ID", but the previously held session
state is NOT left unchanged: `sessionData` and `documentAnalysis` are reset
to `null` by the `catch` block. -/
theorem C1_missing_session_id_clobbers_state :
    (handleDocumentUpload heldAppState
        (.success ⟨none, "Lease.pdf", sampleAnalysis, "ok"⟩)).error =
      some "Invalid response: missing session ID" ∧
    (handleDocumentUpload heldAppState
        (.success ⟨none, "Lease.pdf", sampleAnalysis, "ok"⟩)).sessionData = none ∧
    (handleDocumentUpload heldAppState
        (.success ⟨none, "Lease.pdf", sampleAnalysis, "ok"⟩)).documentAnalysis = none ∧
    heldAppState.sessionData = some sampleSession ∧
    heldAppState.documentAnalysis = some sampleAnalysis := by
  refine ⟨rfl, rfl, rfl, rfl, rfl⟩

/-- C1 (amended): for every upload whose HTTP response lacks a truthy
`session_id` field, the upload handler rejects with the error
"Invalid response: missing session ID" and clears the held session state:
`sessionData` and `documentAnalysis` are reset to `null` (they are not
preserved). -/
theorem C1_missing_session_id_rejects_and_clears
    (s : AppState) (d : UploadResponseData)
    (h : strTruthy d.session_id = false) :
    (handleDocumentUpload s (.success d)).error =
      some "Invalid response: missing session ID" ∧
    (handleDocumentUpload s (.success d)).sessionData = none ∧
    (handleDocumentUpload s (.success d)).documentAnalysis = none := by
  rcases hd : d.session_id with _ | sid
  · simp [handleDocumentUpload, hd, uploadCatch]
  · have hsid : sid = "" := by
      by_contra hne
      simp [strTruthy, hd, hne] at h
    subst hsid
    simp [handleDocumentUpload, hd, uploadCatch]

/-- C1, witness for the amended theorem at a concrete input. -/
theorem C1_missing_session_id_rejects_and_clears_witness :
    (handleDocumentUpload heldAppState
        (.success ⟨none, "Lease.pdf", sampleAnalysis, "ok"⟩)).error =
      some "Invalid response: missing session ID" ∧
    (handleDocumentUpload heldAppState
        (.success ⟨none, "Lease.pdf", sampleAnalysis, "ok"⟩)).sessionData = none ∧
    (handleDocumentUpload heldAppState
        (.success ⟨none, "Lease.pdf", sampleAnalysis, "ok"⟩)).documentAnalysis = none :=
  C1_missing_session_id_rejects_and_clears heldAppState
    ⟨none, "Lease.pdf", sampleAnalysis, "ok"⟩ rfl

/-- C2, counterexample: `explainClause` and `getSession` perform no local
session-id validation — invoked with an empty session identifier they still
issue an HTTP request (to a malformed path) instead of failing locally. -/
theorem C2_explain_and_get_session_not_validated :
    explainClauseStep "" "clause-1" =
      .request ⟨"POST", "/explain//clause-1"⟩ ∧
    (explainClauseStep "" "clause-1").isLocalError = false ∧
    getSessionStep "" = .request ⟨"GET", "/sessions/"⟩ ∧
    (getSessionStep "").isLocalError = false := by
  refine ⟨rfl, rfl, rfl, rfl⟩

/-- C2 (amended): of the session-scoped API client operations, summarize,
chat and delete fail with a local validation error before any HTTP request
when invoked with an empty session identifier, while explain-clause and
get-session perform no local validation and issue the HTTP request even
with an empty session identifier. -/
theorem C2_empty_session_id_validation (sessionId clauseId : String)
    (h : sessionId = "") :
    summarizeDocumentStep sessionId = .localError "Session ID is required" ∧
    chatWithDocumentStep sessionId = .localError "Session ID is required for chat" ∧
    deleteSessionStep sessionId = .localError "Session ID is required" ∧
    (explainClauseStep sessionId clauseId).isLocalError = false ∧
    (getSessionStep sessionId).isLocalError = false := by
  subst h
  refine ⟨rfl, rfl, rfl, rfl, rfl⟩

/-- C2, witness for the amended theorem at a concrete input. -/
theorem C2_empty_session_id_validation_witness :
    summarizeDocumentStep "" = .localError "Session ID is required" ∧
    chatWithDocumentStep "" = .localError "Session ID is required for chat" ∧
    deleteSessionStep "" = .localError "Session ID is required" ∧
    (explainClauseStep "" "clause-1").isLocalError = false ∧
    (getSessionStep "").isLocalError = false :=
  C2_empty_session_id_validation "" "clause-1" rfl

/-- C3: for every chat send whose HTTP call returns status 404, the surfaced
error message is exactly "Chat session not found. Please reload the page.",
the conversation history is not extended with an assistant message (it is
exactly the pre-send history), and no session update is emitted. -/
theorem C3_chat_404_message (st : ChatState) (sessionData : SessionData)
    (now backendMsg : String)
    (hmsg : jsTrim st.message ≠ "") (hload : st.loading = false)
    (hsid : sessionData.sessionId ≠ "") :
    (handleSendMessage st sessionData now (.httpError 404 backendMsg)).final.error =
      some "Chat session not found. Please reload the page." ∧
    (handleSendMessage st sessionData now (.httpError 404 backendMsg)).final.messages =
      st.messages ∧
    (handleSendMessage st sessionData now (.httpError 404 backendMsg)).sessionUpdate =
      none := by
  simp [handleSendMessage, chatWithDocumentResult, hmsg, hload, hsid]

/-- C3, witness at a concrete input. -/
theorem C3_chat_404_message_witness :
    (handleSendMessage ⟨"hello", [], false, none⟩ sampleSession
        "2024-01-03T00:00:00Z" (.httpError 404 "Not Found")).final.error =
      some "Chat session not found. Please reload the page." ∧
    (handleSendMessage ⟨"hello", [], false, none⟩ sampleSession
        "2024-01-03T00:00:00Z" (.httpError 404 "Not Found")).final.messages = [] ∧
    (handleSendMessage ⟨"hello", [], false, none⟩ sampleSession
        "2024-01-03T00:00:00Z" (.httpError 404 "Not Found")).sessionUpdate = none :=
  C3_chat_404_message ⟨"hello", [], false, none⟩ sampleSession
    "2024-01-03T00:00:00Z" "Not Found" (by decide) rfl (by decide)

/-- C4: every successful send of a non-blank chat message from a history of
length N yields a history of length N + 2, with the user's trimmed message
at position N, the assistant's reply at position N + 1, and the prior
messages unchanged in order. -/
theorem C4_successful_send_appends_two (st : ChatState) (sessionData : SessionData)
    (now : String) (resp : ChatResponse)
    (hmsg : jsTrim st.message ≠ "") (hload : st.loading = false)
    (hsid : sessionData.sessionId ≠ "") :
    (handleSendMessage st sessionData now (.ok resp)).final.messages.length =
      st.messages.length + 2 ∧
    (handleSendMessage st sessionData now (.ok resp)).final.messages.take
      st.messages.length = st.messages ∧
    (handleSendMessage st sessionData now (.ok resp)).final.messages[st.messages.length]? =
      some ⟨.user, jsTrim st.message, now⟩ ∧
    (handleSendMessage st sessionData now
        (.ok resp)).final.messages[st.messages.length + 1]? =
      some ⟨.assistant, resp.response, resp.timestamp⟩ := by
  have hfin : (handleSendMessage st sessionData now (.ok resp)).final.messages =
      st.messages ++
        [⟨.user, jsTrim st.message, now⟩, ⟨.assistant, resp.response, resp.timestamp⟩] := by
    simp [handleSendMessage, chatWithDocumentResult, hmsg, hload, hsid]
  rw [hfin]
  refine ⟨by simp, by simp, ?_, ?_⟩
  · rw [List.getElem?_append_right (Nat.le_refl _)]
    simp
  · rw [List.getElem?_append_right (Nat.le_succ_of_le (Nat.le_refl _))]
    simp

/-- C4, witness at a concrete input. -/
theorem C4_successful_send_appends_two_witness :
    (handleSendMessage ⟨" hi ", [], false, none⟩ sampleSession
        "2024-01-03T00:00:00Z" (.ok ⟨"s1", "reply", "2024-01-03T00:00:05Z"⟩)
      ).final.messages.length = 0 + 2 ∧
    (handleSendMessage ⟨" hi ", [], false, none⟩ sampleSession
        "2024-01-03T00:00:00Z" (.ok ⟨"s1", "reply", "2024-01-03T00:00:05Z"⟩)
      ).final.messages.take 0 = [] ∧
    (handleSendMessage ⟨" hi ", [], false, none⟩ sampleSession
        "2024-01-03T00:00:00Z" (.ok ⟨"s1", "reply", "2024-01-03T00:00:05Z"⟩)
      ).final.messages[0]? = some ⟨.user, jsTrim " hi ", "2024-01-03T00:00:00Z"⟩ ∧
    (handleSendMessage ⟨" hi ", [], false, none⟩ sampleSession
        "2024-01-03T00:00:00Z" (.ok ⟨"s1", "reply", "2024-01-03T00:00:05Z"⟩)
      ).final.messages[0 + 1]? = some ⟨.assistant, "reply", "2024-01-03T00:00:05Z"⟩ := by
  have h := C4_successful_send_appends_two ⟨" hi ", [], false, none⟩ sampleSession
    "2024-01-03T00:00:00Z" ⟨"s1", "reply", "2024-01-03T00:00:05Z"⟩
    (by decide) rfl (by decide)
  simpa using h

/-- C5: for every chat send whose backend call fails (any non-success HTTP
outcome), the local conversation history reverts to exactly the pre-send
snapshot, an error message is displayed, and no session update is
emitted. -/
theorem C5_failed_send_rolls_back (st : ChatState) (sessionData : SessionData)
    (now : String) (outcome : HttpOutcome ChatResponse)
    (hmsg : jsTrim st.message ≠ "") (hload : st.loading = false)
    (hsid : sessionData.sessionId ≠ "") (hfail : outcome.isOk = false) :
    (handleSendMessage st sessionData now outcome).final.messages = st.messages ∧
    (handleSendMessage st sessionData now outcome).final.error.isSome = true ∧
    (handleSendMessage st sessionData now outcome).sessionUpdate = none := by
  cases outcome with
  | ok r => simp [HttpOutcome.isOk] at hfail
  | httpError status msg =>
      by_cases h404 : status = 404
      · subst h404
        simp [handleSendMessage, chatWithDocumentResult, hmsg, hload, hsid]
      · by_cases hempty : msg = ""
        · subst hempty
          simp [handleSendMessage, chatWithDocumentResult, hmsg, hload, hsid, h404]
        · simp [handleSendMessage, chatWithDocumentResult, hmsg, hload, hsid, h404, hempty]
  | networkError msg =>
      by_cases hempty : msg = ""
      · subst hempty
        simp [handleSendMessage, chatWithDocumentResult, hmsg, hload, hsid]
      · simp [handleSendMessage, chatWithDocumentResult, hmsg, hload, hsid, hempty]

/-- C5, witness at a concrete input. -/
theorem C5_failed_send_rolls_back_witness :
    (handleSendMessage ⟨"hello", [⟨.user, "old", "t0"⟩], false, none⟩ sampleSession
        "2024-01-03T00:00:00Z" (.networkError "Network Error")).final.messages =
      [⟨.user, "old", "t0"⟩] ∧
    (handleSendMessage ⟨"hello", [⟨.user, "old", "t0"⟩], false, none⟩ sampleSession
        "2024-01-03T00:00:00Z" (.networkError "Network Error")).final.error.isSome =
      true ∧
    (handleSendMessage ⟨"hello", [⟨.user, "old", "t0"⟩], false, none⟩ sampleSession
        "2024-01-03T00:00:00Z" (.networkError "Network Error")).sessionUpdate = none :=
  C5_failed_send_rolls_back ⟨"hello", [⟨.user, "old", "t0"⟩], false, none⟩
    sampleSession "2024-01-03T00:00:00Z" (.networkError "Network Error")
    (by decide) rfl (by decide) rfl

/-- C9: a send attempted while the composed message trims to empty, or while
a send is already in flight, is a no-op: no HTTP request is issued and the
conversation history, composer text, loading flag and error state are all
unchanged. -/
theorem C9_blank_or_loading_send_is_noop (st : ChatState) (sessionData : SessionData)
    (now : String) (outcome : HttpOutcome ChatResponse)
    (h : jsTrim st.message = "" ∨ st.loading = true) :
    handleSendMessage st sessionData now outcome = ⟨none, st, none⟩ := by
  rcases h with h | h <;> simp [handleSendMessage, h]

/-- C9, witness at a concrete input. -/
theorem C9_blank_or_loading_send_is_noop_witness :
    handleSendMessage ⟨"   ", [], false, none⟩ sampleSession "t" (.ok ⟨"s1", "r", "t"⟩) =
      ⟨none, ⟨"   ", [], false, none⟩, none⟩ :=
  C9_blank_or_loading_send_is_noop ⟨"   ", [], false, none⟩ sampleSession "t"
    (.ok ⟨"s1", "r", "t"⟩) (Or.inl (by decide))

/-- C10: clearing the conversation empties only the chat view's local
message list and error state (composer text and loading flag untouched) and
never invokes the session-update callback, so the session object's
`conversationHistory` is unchanged; a subsequent re-render of the session
prop restores the pre-clear history. -/
theorem C10_clear_is_local (st : ChatState) (sessionData : SessionData)
    (hsid : sessionData.sessionId ≠ "") :
    (clearConversation st).1.messages = [] ∧
    (clearConversation st).1.error = none ∧
    (clearConversation st).1.message = st.message ∧
    (clearConversation st).1.loading = st.loading ∧
    (clearConversation st).2 = none ∧
    (sessionDataEffect sessionData (clearConversation st).1).messages =
      sessionData.conversationHistory := by
  simp [clearConversation, sessionDataEffect, hsid]

/-- C10, witness at a concrete input. -/
theorem C10_clear_is_local_witness :
    (clearConversation ⟨"draft", [⟨.user, "q", "t0"⟩], false, some "err"⟩).1.messages =
      [] ∧
    (clearConversation ⟨"draft", [⟨.user, "q", "t0"⟩], false, some "err"⟩).1.error =
      none ∧
    (clearConversation ⟨"draft", [⟨.user, "q", "t0"⟩], false, some "err"⟩).1.message =
      "draft" ∧
    (clearConversation ⟨"draft", [⟨.user, "q", "t0"⟩], false, some "err"⟩).1.loading =
      false ∧
    (clearConversation ⟨"draft", [⟨.user, "q", "t0"⟩], false, some "err"⟩).2 = none ∧
    (sessionDataEffect sampleSession
        (clearConversation ⟨"draft", [⟨.user, "q", "t0"⟩], false, some "err"⟩).1
      ).messages = sampleSession.conversationHistory :=
  C10_clear_is_local ⟨"draft", [⟨.user, "q", "t0"⟩], false, some "err"⟩ sampleSession
    (by decide)

/-- C6, counterexample: from a fresh analysis view, clicking clause "A"
(starting its fetch), clicking again (collapsing — the in-flight fetch
survives), and clicking a third time re-expands and starts a second fetch
for the same clause: the guard in `handleClauseExpand` checks only the
explanation cache and the expansion toggle, never the pending-set, so two
explanation requests for clause "A" are in flight at once. -/
theorem C6_duplicate_inflight_fetch_reachable :
    daRun sampleSession da_w0
        [.clickClause "A", .clickClause "A", .clickClause "A"] =
      some ⟨⟨some "A", [], ["A"], none, false, none⟩, ["A", "A"], 0⟩ ∧
    (["A", "A"] : List String).count "A" = 2 := by
  refine ⟨by decide, by decide⟩

/-- C6 (amended): the pending-set marks clauses with an in-flight fetch for
rendering but is never consulted by the fetch guard, so it does not prevent
a second concurrent request: from any state where a clause's explanation is
uncached, a fetch for it is in flight, and it is the currently expanded
clause, clicking it twice (collapse then re-expand) issues a second
concurrent explanation request for that same clause. -/
theorem C6_pending_set_does_not_prevent_duplicates (sessionData : SessionData)
    (w : DAWorld) (c : String)
    (hcache : w.ui.clauseExplanations.lookup c = none)
    (hexp : w.ui.expandedClause = some c)
    (hin : c ∈ w.inflightExplain) :
    ∃ w2, daRun sessionData w [.clickClause c, .clickClause c] = some w2 ∧
      w2.inflightExplain = c :: w.inflightExplain ∧
      2 ≤ w2.inflightExplain.count c := by
  have h1 : daStep sessionData w (.clickClause c) =
      some { w with ui := { w.ui with expandedClause := none } } := by
    simp [daStep, hexp, hcache]
  have h2 : daStep sessionData { w with ui := { w.ui with expandedClause := none } }
      (.clickClause c) =
      some { w with
        ui := { w.ui with
          expandedClause := some c
          loadingExplanations := setAdd w.ui.loadingExplanations c }
        inflightExplain := c :: w.inflightExplain } := by
    simp [daStep, hcache]
  refine ⟨{ w with
      ui := { w.ui with
        expandedClause := some c
        loadingExplanations := setAdd w.ui.loadingExplanations c }
      inflightExplain := c :: w.inflightExplain }, ?_, rfl, ?_⟩
  · simp [daRun, h1, h2]
  · have hpos : 0 < w.inflightExplain.count c := List.count_pos_iff.mpr hin
    simp only [List.count_cons_self]
    omega

/-- C6, witness for the amended theorem at a concrete input. -/
theorem C6_pending_set_does_not_prevent_duplicates_witness :
    ∃ w2, daRun sampleSession ⟨⟨some "A", [], ["A"], none, false, none⟩, ["A"], 0⟩
        [.clickClause "A", .clickClause "A"] = some w2 ∧
      w2.inflightExplain = "A" :: ["A"] ∧
      2 ≤ w2.inflightExplain.count "A" :=
  C6_pending_set_does_not_prevent_duplicates sampleSession
    ⟨⟨some "A", [], ["A"], none, false, none⟩, ["A"], 0⟩ "A" rfl rfl
    (List.mem_singleton.mpr rfl)

/-- C7: expanding a clause whose explanation is already cached (as it is
after a successful fetch, with no intervening new session) only toggles the
expansion state: no additional explanation request is issued, the cache,
the pending-set and all outstanding requests are unchanged, and the cached
explanation keyed by the clause id is what the view renders. -/
theorem C7_second_expand_is_cache_hit (sessionData : SessionData) (w : DAWorld)
    (c : String) (e : ClauseExplanation)
    (hcache : w.ui.clauseExplanations.lookup c = some e)
    (hexp : w.ui.expandedClause ≠ some c) :
    daStep sessionData w (.clickClause c) =
      some { w with ui := { w.ui with expandedClause := some c } } := by
  simp [daStep, hcache, hexp]

/-- C7, witness at a concrete input. -/
theorem C7_second_expand_is_cache_hit_witness :
    daStep sampleSession
        ⟨⟨none, [("clause-1", sampleExplanation)], [], none, false, none⟩, [], 0⟩
        (.clickClause "clause-1") =
      some ⟨⟨some "clause-1", [("clause-1", sampleExplanation)], [], none, false,
        none⟩, [], 0⟩ :=
  C7_second_expand_is_cache_hit sampleSession
    ⟨⟨none, [("clause-1", sampleExplanation)], [], none, false, none⟩, [], 0⟩
    "clause-1" sampleExplanation rfl (by decide)

/-- C8, counterexample: a network failure of the upload operation is caught
and surfaced, but the previously held state is NOT left intact: the `catch`
block of `handleDocumentUpload` resets `sessionData` and `documentAnalysis`
to `null`. -/
theorem C8_upload_failure_discards_session :
    (handleDocumentUpload heldAppState (.failure "Network Error")).error =
      some "Network Error" ∧
    (handleDocumentUpload heldAppState (.failure "Network Error")).sessionData =
      none ∧
    (handleDocumentUpload heldAppState (.failure "Network Error")).documentAnalysis =
      none ∧
    heldAppState.sessionData = some sampleSession ∧
    heldAppState.documentAnalysis = some sampleAnalysis := by
  refine ⟨rfl, rfl, rfl, rfl, rfl⟩

/-- C8 (amended): network failures of every operation (upload, explain,
summarize, chat, session load) are caught at their call sites, but not all
of them leave prior state intact or surface a message: an upload failure
surfaces its message yet clears the held `sessionData` and
`documentAnalysis`; a summary failure overwrites the cached summary with a
fixed inline failure text (explanation cache and error banner untouched); a
failed explanation fetch is silent, clearing only its pending mark and
leaving the cache and error banner intact; a failed session load is silent
and leaves the whole application state untouched; and a failed chat send
surfaces an error while the conversation history reverts to its pre-send
snapshot. -/
theorem C8_network_failure_semantics
    (s : AppState) (uploadMsg loadMsg : String)
    (sessionData : SessionData) (w : DAWorld) (c : String)
    (st : ChatState) (now : String) (outcome : HttpOutcome ChatResponse)
    (hmsg : uploadMsg ≠ "")
    (hsum : 0 < w.inflightSummary)
    (hc : c ∈ w.inflightExplain)
    (hsend : jsTrim st.message ≠ "") (hload : st.loading = false)
    (hsid : sessionData.sessionId ≠ "") (hfail : outcome.isOk = false) :
    (handleDocumentUpload s (.failure uploadMsg)).error = some uploadMsg ∧
    (handleDocumentUpload s (.failure uploadMsg)).sessionData = none ∧
    (handleDocumentUpload s (.failure uploadMsg)).documentAnalysis = none ∧
    loadSessionApp s (.error loadMsg) = s ∧
    daStep sessionData w .summaryFailed =
      some { w with
        ui := { w.ui with
          documentSummary := some "Failed to generate summary. Please try again."
          loadingSummary := false }
        inflightSummary := w.inflightSummary - 1 } ∧
    daStep sessionData w (.explainFailed c) =
      some { w with
        ui := { w.ui with
          loadingExplanations := w.ui.loadingExplanations.erase c }
        inflightExplain := w.inflightExplain.erase c } ∧
    (handleSendMessage st sessionData now outcome).final.messages = st.messages ∧
    (handleSendMessage st sessionData now outcome).final.error.isSome = true := by
  refine ⟨?_, ?_, ?_, ?_, ?_, ?_, ?_⟩
  · simp [handleDocumentUpload, uploadCatch, hmsg]
  · simp [handleDocumentUpload, uploadCatch]
  · simp [handleDocumentUpload, uploadCatch]
  · simp [loadSessionApp, loadSession]
  · simp [daStep, hsum]
  · simp [daStep, hc]
  · cases outcome with
    | ok r => simp [HttpOutcome.isOk] at hfail
    | httpError status msg =>
        by_cases h404 : status = 404
        · subst h404
          simp [handleSendMessage, chatWithDocumentResult, hsend, hload, hsid]
        · by_cases hempty : msg = ""
          · subst hempty
            simp [handleSendMessage, chatWithDocumentResult, hsend, hload, hsid, h404]
          · simp [handleSendMessage, chatWithDocumentResult, hsend, hload, hsid, h404,
              hempty]
    | networkError msg =>
        by_cases hempty : msg = ""
        · subst hempty
          simp [handleSendMessage, chatWithDocumentResult, hsend, hload, hsid]
        · simp [handleSendMessage, chatWithDocumentResult, hsend, hload, hsid, hempty]

/-- C8, witness for the amended theorem at a concrete input. -/
theorem C8_network_failure_semantics_witness :
    (handleDocumentUpload heldAppState (.failure "Network Error")).error =
      some "Network Error" ∧
    (handleDocumentUpload heldAppState (.failure "Network Error")).sessionData =
      none ∧
    (handleDocumentUpload heldAppState (.failure "Network Error")).documentAnalysis =
      none ∧
    loadSessionApp heldAppState (.error "Request failed with status code 500") =
      heldAppState ∧
    daStep sampleSession
        ⟨⟨none, [("clause-1", sampleExplanation)], ["clause-1"], some "old summary",
          true, none⟩, ["clause-1"], 1⟩ .summaryFailed =
      some ⟨⟨none, [("clause-1", sampleExplanation)], ["clause-1"],
        some "Failed to generate summary. Please try again.", false, none⟩,
        ["clause-1"], 0⟩ ∧
    daStep sampleSession
        ⟨⟨none, [("clause-1", sampleExplanation)], ["clause-1"], some "old summary",
          true, none⟩, ["clause-1"], 1⟩ (.explainFailed "clause-1") =
      some ⟨⟨none, [("clause-1", sampleExplanation)], [], some "old summary",
        true, none⟩, [], 1⟩ ∧
    (handleSendMessage ⟨"hello", [], false, none⟩ sampleSession "t"
        (.networkError "boom")).final.messages = [] ∧
    (handleSendMessage ⟨"hello", [], false, none⟩ sampleSession "t"
        (.networkError "boom")).final.error.isSome = true := by
  have h := C8_network_failure_semantics heldAppState "Network Error"
    "Request failed with status code 500" sampleSession
    ⟨⟨none, [("clause-1", sampleExplanation)], ["clause-1"], some "old summary",
      true, none⟩, ["clause-1"], 1⟩ "clause-1"
    ⟨"hello", [], false, none⟩ "t" (.networkError "boom")
    (by decide) (by decide) (by decide) (by decide) rfl (by decide) rfl
  simpa using h

end LexlyAI
